import Mathlib

/-
Verification development for the AEGIS-SHIELD embedded node
(source: Aurdino_Code.cpp).

The source is a single-threaded Arduino sketch: a WebSocket server
delivers connect/disconnect/text events into `webSocketEvent`; a main
`loop` periodically reads sensors, builds a JSON snapshot and broadcasts
it; text commands trigger blocking hardware alert patterns.

Shallow embedding conventions:
  - Hardware reads (digitalRead, analogRead) and the pseudo-random
    draws of `readSensors` become explicit input parameters
    (`SensorIn`).
  - Side effects (digitalWrite, delay, sendTXT, broadcastTXT) become
    an ordered list of `OutEvent` values, in the exact order the source
    performs them.  Serial logging is pure diagnostics and is not
    modelled.
  - The C float `temperature` is modelled exactly in tenths of a degree
    (the source computes 25.0 + random(-10,10)/10.0, an exact multiple
    of 0.1); no claim inspects its numeric value.
  - The global `String jsonData` accumulates serialized snapshots:
    the ArduinoJson function serializeJson(doc, String&) appends to the String
    (documented library behaviour) and the sketch never clears it.  We
    model the accumulated payload as the list of serialized objects.
-/

namespace AegisShield

/-- Pin numbers from the defines at the top of the sketch. -/
def RED_LED : Nat := 32

/-- Green LED pin. -/
def GREEN_LED : Nat := 25

/-- Buzzer pin. -/
def BUZZER : Nat := 26

/-- Gas threshold used in readSensors (`gas > 2000`). -/
def THRESHOLD : Int := 2000

/-- JSON value as produced by createSensorJSON.  `real` carries the
temperature in exact tenths of a degree. -/
inductive Jv where
  | int (n : Int)
  | real (tenths : Int)
  | str (s : String)
  | bool (b : Bool)
deriving DecidableEq, Repr

/-- Observable effect of the sketch, in program order: a targeted
WebSocket send, a broadcast, a digitalWrite, or a delay. -/
inductive OutEvent where
  | sendTXT (num : Nat) (payload : String)
  | broadcastTXT (payload : String)
  | digitalWrite (pin : Nat) (high : Bool)
  | delayMs (ms : Nat)
deriving DecidableEq, Repr

/-- Literal payload sent on connect. -/
def connectedAck : String := "\x7b\"status\":\"connected\"\x7d"

/-- Literal acknowledgment for the emergency command. -/
def emergencyAck : String := "\x7b\"action\":\"emergency_activated\"\x7d"

/-- Literal acknowledgment for the sos command. -/
def sosAck : String := "\x7b\"action\":\"sos_activated\"\x7d"

/-- Literal completion broadcast of triggerEmergency. -/
def emergencyAlert : String := "\x7b\"alert\":\"EMERGENCY_MANUAL_TRIGGER\"\x7d"

/-- Literal completion broadcast of triggerSOS. -/
def sosAlert : String := "\x7b\"alert\":\"SOS_SIGNAL_SENT\"\x7d"

/-- Keyword searched first by handleWebSocketMessage. -/
def emergencyKeyword : String := "emergency"

/-- Keyword searched second by handleWebSocketMessage. -/
def sosKeyword : String := "sos"

/-- Status string for an emergency snapshot. -/
def emergencyStatus : String := "EMERGENCY"

/-- Status string for a normal snapshot. -/
def normalStatus : String := "NORMAL"

/-- Key of the derived status field. -/
def statusField : String := "status"

/-- Checks that `n` is a prefix of `h` (character-exact, case
sensitive). -/
def startsWithL : List Char → List Char → Bool
  | _, [] => true
  | [], _ :: _ => false
  | h :: hs, n :: ns => h == n && startsWithL hs ns

/-- C `strstr(hay, needle) != NULL`: case-sensitive substring
containment. -/
def strstrB : List Char → List Char → Bool
  | [], n => startsWithL [] n
  | h :: hs, n => startsWithL (h :: hs) n || strstrB hs n

/-- Substring containment on strings, the match policy of
handleWebSocketMessage. -/
def containsStr (hay needle : String) : Bool :=
  strstrB hay.toList needle.toList

/-- One iteration of the blink loop body in triggerEmergency. -/
def blinkStep : List OutEvent :=
  [.digitalWrite RED_LED true, .digitalWrite BUZZER true, .delayMs 200,
   .digitalWrite RED_LED false, .digitalWrite BUZZER false, .delayMs 200]

/-- Hardware steps of the emergency pattern: five fast blink+buzz
repetitions. -/
def emergencyPatternOut : List OutEvent := (List.replicate 5 blinkStep).flatten

/-- Effects of triggerEmergency: the pattern, then the unconditional
completion broadcast. -/
def triggerEmergencyOut : List OutEvent :=
  emergencyPatternOut ++ [.broadcastTXT emergencyAlert]

/-- One buzzer pulse of triggerSOS with the given hold and gap times. -/
def buzzPulse (hold gap : Nat) : List OutEvent :=
  [.digitalWrite BUZZER true, .delayMs hold, .digitalWrite BUZZER false, .delayMs gap]

/-- Hardware steps of the SOS pattern: three short, pause, three long,
pause, three short. -/
def sosPatternOut : List OutEvent :=
  (List.replicate 3 (buzzPulse 200 200)).flatten ++ [.delayMs 400] ++
  (List.replicate 3 (buzzPulse 500 200)).flatten ++ [.delayMs 400] ++
  (List.replicate 3 (buzzPulse 200 200)).flatten

/-- Effects of triggerSOS: the pattern, then the unconditional
completion broadcast. -/
def triggerSOSOut : List OutEvent :=
  sosPatternOut ++ [.broadcastTXT sosAlert]

/-- Effects of handleWebSocketMessage(num, message): strstr for
"emergency" first (trigger then acknowledge the sender), else strstr
for "sos", else nothing. -/
def handleWebSocketMessage (num : Nat) (message : String) : List OutEvent :=
  if containsStr message emergencyKeyword then
    triggerEmergencyOut ++ [.sendTXT num emergencyAck]
  else if containsStr message sosKeyword then
    triggerSOSOut ++ [.sendTXT num sosAck]
  else
    []

/-- Inputs of one readSensors call: the two real pin reads and the four
pseudo-random draws, plus the millis() clock and the global clientCount
read by createSensorJSON. -/
structure SensorIn where
  flameRaw : Bool
  gasRead : Int
  randHR : Int
  randTempTenth : Int
  randPosture : Int
  randFall : Int
  nowMillis : Nat
deriving DecidableEq, Repr

/-- Exact translation of createSensorJSON: the nine fields in source
order.  The status expression at line 162 of the sketch tests only
`flame || fall`. -/
def createSensorJSON (hr : Int) (tempTenths : Int) (gas : Int) (posture : Int)
    (fall flame : Bool) (nowMillis : Nat) (clientCount : Int) :
    List (String × Jv) :=
  [("heartRate", Jv.int hr),
   ("temperature", Jv.real tempTenths),
   ("gasLevel", Jv.int gas),
   ("posture", Jv.int posture),
   ("fallDetected", Jv.bool fall),
   ("flameDetected", Jv.bool flame),
   ("status", Jv.str (if flame || fall then emergencyStatus else normalStatus)),
   ("timestamp", Jv.int ((nowMillis / 1000 : Nat) : Int)),
   ("clients", Jv.int clientCount)]

/-- Field-name list of a serialized snapshot, in source order. -/
def snapshotFields : List String :=
  ["heartRate", "temperature", "gasLevel", "posture", "fallDetected",
   "flameDetected", "status", "timestamp", "clients"]

/-- Result of one readSensors call: derived sensor values, the two LED
levels written, and the JSON document built by createSensorJSON. -/
structure SensorRead where
  flame : Bool
  gas : Int
  heartRate : Int
  tempTenths : Int
  posture : Int
  fallDetected : Bool
  redLED : Bool
  greenLED : Bool
  doc : List (String × Jv)
deriving DecidableEq, Repr

/-- Exact translation of readSensors: `flame = !digitalRead`, simulated
values from the random draws, the LED rule
`flame || fallDetected || gas > 2000`, then createSensorJSON. -/
def readSensors (i : SensorIn) (clientCount : Int) : SensorRead :=
  let flame := !i.flameRaw
  let gas := i.gasRead
  let heartRate := 70 + i.randHR
  let tempTenths := 250 + i.randTempTenth
  let posture := i.randPosture
  let fallDetected := decide (i.randFall < 5)
  let emergencyLED := flame || fallDetected || decide (gas > THRESHOLD)
  { flame := flame
    gas := gas
    heartRate := heartRate
    tempTenths := tempTenths
    posture := posture
    fallDetected := fallDetected
    redLED := emergencyLED
    greenLED := !emergencyLED
    doc := createSensorJSON heartRate tempTenths gas posture fallDetected flame
      i.nowMillis clientCount }

/-- First value bound to a key in a JSON document, as a reader of the
serialized object sees it. -/
def lookupField (k : String) : List (String × Jv) → Option Jv
  | [] => none
  | (k2, v) :: rest => if k2 == k then some v else lookupField k rest

/-- Transport events delivered to webSocketEvent. -/
inductive WsEvent where
  | connected (num : Nat)
  | disconnected (num : Nat)
  | text (num : Nat) (message : String)
deriving DecidableEq, Repr

/-- Registry state: `clientCount` is the global int counter of the sketch;
`ids` is ghost state recording which session ids are currently
connected according to the event history (the sketch itself stores no
ids), used to state the properties of the spec about distinct sessions. -/
structure WsState where
  clientCount : Int
  ids : List Nat
deriving DecidableEq, Repr

/-- Initial registry state at boot. -/
def initWsState : WsState := { clientCount := 0, ids := [] }

/-- Exact translation of webSocketEvent: disconnect always decrements
the counter, connect always increments it and acknowledges the session,
text goes to handleWebSocketMessage.  The ghost `ids` component tracks
the true connected set: insert-if-absent on connect, erase on
disconnect. -/
def wsStep (s : WsState) (e : WsEvent) : WsState × List OutEvent :=
  match e with
  | .disconnected n =>
      ({ clientCount := s.clientCount - 1, ids := s.ids.erase n }, [])
  | .connected n =>
      ({ clientCount := s.clientCount + 1,
         ids := if s.ids.contains n then s.ids else n :: s.ids },
       [.sendTXT n connectedAck])
  | .text n m => (s, handleWebSocketMessage n m)

/-- Registry state after a sequence of transport events. -/
def runWs (s : WsState) : List WsEvent → WsState
  | [] => s
  | e :: es => runWs (wsStep s e).1 es

/-- Well-formed transport behaviour: the transport only reports a
connect for a session that is not currently connected and a disconnect
for one that is. -/
def wellFormedFrom (ids : List Nat) : List WsEvent → Bool
  | [] => true
  | .connected n :: es =>
      !ids.contains n && wellFormedFrom (n :: ids) es
  | .disconnected n :: es =>
      ids.contains n && wellFormedFrom (ids.erase n) es
  | .text _ _ :: es => wellFormedFrom ids es

/-- Unsigned 32-bit subtraction, the semantics of
`millis() - lastDataSend` on the 32-bit unsigned long of the ESP32. -/
def ulSub (a b : Nat) : Nat :=
  (a % 4294967296 + 4294967296 - b % 4294967296) % 4294967296

/-- Guard of the timed block in loop():
`millis() - lastDataSend > 2000 && clientCount > 0`. -/
def loopGuard (now last : Nat) (c : Int) : Bool :=
  decide (ulSub now last > 2000) && decide (c > 0)

/-- Number of broadcasts performed by successive loop() iterations
observed at the given millis() values, starting from the given
lastDataSend; lastDataSend is updated only when the guard fires, as in
the source. -/
def runLoop (c : Int) (last : Nat) : List Nat → Nat
  | [] => 0
  | now :: rest =>
      if loopGuard now last c then 1 + runLoop c now rest
      else runLoop c last rest

/-- State touched by one timed broadcast block: the accumulated
jsonData (list of serialized snapshot objects, since the ArduinoJson
function serializeJson appends to the destination String and the sketch never
clears it) and the client counter. -/
structure TickState where
  jsonData : List (List (String × Jv))
  clientCount : Int
deriving DecidableEq, Repr

/-- Effect of sendSensorData: broadcasts the current jsonData payload
when clientCount > 0, otherwise nothing. -/
def sendSensorDataOut (c : Int) (jd : List (List (String × Jv))) :
    Option (List (List (String × Jv))) :=
  if c > 0 then some jd else none

/-- One scheduling tick on which the loop guard fired: readSensors
builds a fresh document and createSensorJSON serializes it onto the end
of jsonData, then sendSensorData broadcasts the accumulated payload. -/
def broadcastTick (s : TickState) (i : SensorIn) :
    TickState × Option (List (List (String × Jv))) :=
  let r := readSensors i s.clientCount
  let jd := s.jsonData ++ [r.doc]
  ({ s with jsonData := jd }, sendSensorDataOut s.clientCount jd)

/-- Trace of the single-threaded event loop: events are handled one at
a time to completion, each output tagged with the index of the event
that produced it. -/
def sysTraceFrom (k : Nat) : List (Nat × String) → List (Nat × OutEvent)
  | [] => []
  | m :: rest =>
      (handleWebSocketMessage m.1 m.2).map (fun e => (k, e)) ++
        sysTraceFrom (k + 1) rest

/-- Tagged output trace of a whole inbound message sequence. -/
def sysTrace (msgs : List (Nat × String)) : List (Nat × OutEvent) :=
  sysTraceFrom 0 msgs

/-- Concrete readSensors input with no flame (pin reads HIGH, so
`!digitalRead` is false), no fall (draw 50 is not below 5), and a gas
reading of 2500, above the threshold. -/
def c1In : SensorIn :=
  { flameRaw := true, gasRead := 2500, randHR := 0, randTempTenth := 0,
    randPosture := 1, randFall := 50, nowMillis := 5000 }

/-- C1 counterexample: on a snapshot with gasLevel 2500 > THRESHOLD but
no flame and no fall, the generated status field is NORMAL, so status
is not EMERGENCY iff (flame or fall or gas > THRESHOLD): the status
expression of the source tests only flame and fall. -/
theorem C1_counterexample :
    (readSensors c1In 1).gas > THRESHOLD ∧
    (readSensors c1In 1).flame = false ∧
    (readSensors c1In 1).fallDetected = false ∧
    lookupField statusField ((readSensors c1In 1).doc) = some (Jv.str normalStatus) ∧
    ¬ (lookupField statusField ((readSensors c1In 1).doc) = some (Jv.str emergencyStatus) ↔
        ((readSensors c1In 1).flame = true ∨ (readSensors c1In 1).fallDetected = true ∨
          (readSensors c1In 1).gas > THRESHOLD)) := by
  decide

/-- C1 amended: for every generated snapshot, status is EMERGENCY iff
flameDetected or fallDetected; the gas reading never influences the
status field (it only drives the LEDs). -/
theorem C1_amended (i : SensorIn) (c : Int) :
    (lookupField statusField ((readSensors i c).doc) = some (Jv.str emergencyStatus) ↔
      ((readSensors i c).flame = true ∨ (readSensors i c).fallDetected = true)) ∧
    ∀ g : Int,
      lookupField statusField ((readSensors { i with gasRead := g } c).doc) =
        lookupField statusField ((readSensors i c).doc) := by
  have h : lookupField statusField ((readSensors i c).doc) =
      some (Jv.str (if (!i.flameRaw) || decide (i.randFall < 5) then emergencyStatus
        else normalStatus)) := rfl
  have hflame : (readSensors i c).flame = !i.flameRaw := rfl
  have hfall : (readSensors i c).fallDetected = decide (i.randFall < 5) := rfl
  refine ⟨?_, fun g => rfl⟩
  rw [h, hflame, hfall]
  cases hf : i.flameRaw <;> by_cases hr : i.randFall < 5 <;>
    simp [hr, emergencyStatus, normalStatus]

/-- C2 counterexample: a single disconnect event (an event sequence the
claim quantifies over) drives the counter to -1, which is negative and
differs from the number of connected session ids (zero): the sketch
blindly decrements an int. -/
theorem C2_counterexample :
    (runWs initWsState [WsEvent.disconnected 0]).clientCount = -1 ∧
    (runWs initWsState [WsEvent.disconnected 0]).ids.length = 0 ∧
    (runWs initWsState [WsEvent.disconnected 0]).clientCount < 0 := by
  decide

/-- C8 confirmed: after every sensor read, the red LED is driven high
iff flame or fall or gas > THRESHOLD, the green LED is always its
negation, and the two are never equal — exactly one indicator is
asserted. -/
theorem C8_led_rule (i : SensorIn) (c : Int) :
    ((readSensors i c).redLED = true ↔
      ((readSensors i c).flame = true ∨ (readSensors i c).fallDetected = true ∨
        (readSensors i c).gas > THRESHOLD)) ∧
    (readSensors i c).greenLED = !(readSensors i c).redLED ∧
    (readSensors i c).redLED ≠ (readSensors i c).greenLED := by
  have hred : (readSensors i c).redLED =
      ((!i.flameRaw) || decide (i.randFall < 5) || decide (i.gasRead > THRESHOLD)) := rfl
  have hgreen : (readSensors i c).greenLED = !(readSensors i c).redLED := rfl
  have hflame : (readSensors i c).flame = !i.flameRaw := rfl
  have hfall : (readSensors i c).fallDetected = decide (i.randFall < 5) := rfl
  have hgas : (readSensors i c).gas = i.gasRead := rfl
  refine ⟨?_, hgreen, ?_⟩
  · rw [hred, hflame, hfall, hgas]
    simp [Bool.or_eq_true, decide_eq_true_iff, or_assoc]
  · rw [hgreen]
    cases (readSensors i c).redLED <;> simp

/-- C9 counterexample: a duplicate connect for id 0 is not a no-op (the
counter goes from 1 to 2), and a disconnect for the unknown id 7
changes the state, driving the counter to -1. -/
theorem C9_counterexample :
    (runWs initWsState [WsEvent.connected 0, WsEvent.connected 0]).clientCount = 2 ∧
    (runWs initWsState [WsEvent.connected 0]).clientCount = 1 ∧
    runWs initWsState [WsEvent.disconnected 7] ≠ initWsState ∧
    (runWs initWsState [WsEvent.disconnected 7]).clientCount = -1 := by
  decide

/-- C9 amended: connect and disconnect events are never no-ops: every
connect increments the client counter and every disconnect decrements
it, whether or not the id is currently registered — the sketch keeps
only a counter and no session identities. -/
theorem C9_amended (s : WsState) (n : Nat) :
    ((wsStep s (WsEvent.connected n)).1.clientCount = s.clientCount + 1) ∧
    ((wsStep s (WsEvent.disconnected n)).1.clientCount = s.clientCount - 1) :=
  ⟨rfl, rfl⟩

/-- C10 confirmed: both alert sequences end with their completion
broadcast as the very last effect, emitted unconditionally (the trigger
routines never consult the client counter), whereas the periodic
sensor broadcast emits nothing when zero clients are connected. -/
theorem C10_alert_broadcast_unconditional :
    triggerEmergencyOut.getLast? = some (OutEvent.broadcastTXT emergencyAlert) ∧
    triggerSOSOut.getLast? = some (OutEvent.broadcastTXT sosAlert) ∧
    ∀ jd, sendSensorDataOut 0 jd = none := by
  refine ⟨by decide, by decide, fun jd => rfl⟩

/-- Sample inbound text that contains the emergency keyword. -/
def emergencyTestMessage : String := "please trigger emergency now"

/-- Sample inbound text that contains the sos keyword only. -/
def sosTestMessage : String := "send sos now"

/-- C6 confirmed: command routing is case-sensitive substring matching
with emergency checked first: an emergency-containing message yields
exactly the emergency sequence plus its acknowledgment to the sender;
otherwise a sos-containing message yields exactly the SOS sequence plus
its acknowledgment; otherwise no effect and no reply at all. -/
theorem C6_routing (num : Nat) (msg : String) :
    (containsStr msg emergencyKeyword = true →
      handleWebSocketMessage num msg =
        triggerEmergencyOut ++ [OutEvent.sendTXT num emergencyAck]) ∧
    (containsStr msg emergencyKeyword = false → containsStr msg sosKeyword = true →
      handleWebSocketMessage num msg =
        triggerSOSOut ++ [OutEvent.sendTXT num sosAck]) ∧
    (containsStr msg emergencyKeyword = false → containsStr msg sosKeyword = false →
      handleWebSocketMessage num msg = []) := by
  refine ⟨fun h1 => ?_, fun h1 h2 => ?_, fun h1 h2 => ?_⟩
  · simp [handleWebSocketMessage, h1]
  · simp [handleWebSocketMessage, h1, h2]
  · simp [handleWebSocketMessage, h1, h2]

/-- C6 witness: the sos branch fires on a concrete message containing
sos but not emergency. -/
theorem C6_routing_witness :
    handleWebSocketMessage 3 sosTestMessage =
      triggerSOSOut ++ [OutEvent.sendTXT 3 sosAck] :=
  (C6_routing 3 sosTestMessage).2.1 (by decide) (by decide)

/-- C7 confirmed: on a scheduling tick (interval elapsed) the loop
broadcasts iff the client counter is positive, and with zero clients
any number of elapsed ticks produces zero broadcasts. -/
theorem C7_broadcast_gating :
    (∀ (now last : Nat) (c : Int), ulSub now last > 2000 →
      (loopGuard now last c = true ↔ 0 < c)) ∧
    (∀ (last : Nat) (ms : List Nat), runLoop 0 last ms = 0) := by
  constructor
  · intro now last c h
    simp [loopGuard, h]
  · intro last ms
    induction ms generalizing last with
    | nil => rfl
    | cons now rest ih =>
        have hg : loopGuard now last 0 = false := by
          simp [loopGuard]
        simp [runLoop, hg, ih]

/-- C7 witness: a concrete elapsed tick with five clients broadcasts,
and five elapsed ticks with zero clients broadcast nothing. -/
theorem C7_broadcast_gating_witness :
    loopGuard 3000 0 5 = true ∧ runLoop 0 0 [2001, 4002, 6003, 8004, 10005] = 0 :=
  ⟨(C7_broadcast_gating.1 3000 0 5 (by decide)).mpr (by decide),
   C7_broadcast_gating.2 0 [2001, 4002, 6003, 8004, 10005]⟩

/-- C3 counterexample: for the concrete emergency command, both the
acknowledgment and the completion broadcast occur, but the completion
broadcast strictly precedes the acknowledgment in the effect order —
handleWebSocketMessage runs triggerEmergency (which ends with the
broadcast) before sending the acknowledgment, the reverse of the
claimed order. -/
theorem C3_counterexample :
    OutEvent.sendTXT 0 emergencyAck ∈ handleWebSocketMessage 0 emergencyTestMessage ∧
    OutEvent.broadcastTXT emergencyAlert ∈ handleWebSocketMessage 0 emergencyTestMessage ∧
    (handleWebSocketMessage 0 emergencyTestMessage).indexOf
        (OutEvent.broadcastTXT emergencyAlert) <
      (handleWebSocketMessage 0 emergencyTestMessage).indexOf
        (OutEvent.sendTXT 0 emergencyAck) := by
  decide

/-- C3 amended: for every emergency-containing message, the effect
order is: the alert pattern, then the completion broadcast to all
sessions, and only last the acknowledgment to the originating
session — the acknowledgment follows the broadcast, not the other way
round. -/
theorem C3_amended (num : Nat) (msg : String)
    (h : containsStr msg emergencyKeyword = true) :
    handleWebSocketMessage num msg =
      emergencyPatternOut ++
        [OutEvent.broadcastTXT emergencyAlert, OutEvent.sendTXT num emergencyAck] := by
  simp [handleWebSocketMessage, h, triggerEmergencyOut]

/-- C3 witness: the amended order at the concrete scenario message. -/
theorem C3_amended_witness :
    handleWebSocketMessage 0 emergencyTestMessage =
      emergencyPatternOut ++
        [OutEvent.broadcastTXT emergencyAlert, OutEvent.sendTXT 0 emergencyAck] :=
  C3_amended 0 emergencyTestMessage (by decide)

/-- First concrete snapshot input for the accumulation run. -/
def c4In1 : SensorIn :=
  { flameRaw := true, gasRead := 1200, randHR := 2, randTempTenth := 3,
    randPosture := 0, randFall := 42, nowMillis := 4000 }

/-- Second concrete snapshot input for the accumulation run. -/
def c4In2 : SensorIn :=
  { flameRaw := true, gasRead := 1300, randHR := -4, randTempTenth := -2,
    randPosture := 2, randFall := 7, nowMillis := 6000 }

/-- C4: every serialized snapshot object has precisely the nine claimed
fields in source order, but the broadcast payload is the accumulated
jsonData: on the first tick it is one object as claimed, while already
on the second tick it is the concatenation of both snapshots (length 2,
not 1), because serializeJson appends to the never-cleared global
String. -/
theorem C4_payload_accumulation :
    (∀ (i : SensorIn) (c : Int), (readSensors i c).doc.map Prod.fst = snapshotFields) ∧
    (broadcastTick { jsonData := [], clientCount := 1 } c4In1).2 =
      some [(readSensors c4In1 1).doc] ∧
    (broadcastTick (broadcastTick { jsonData := [], clientCount := 1 } c4In1).1 c4In2).2 =
      some [(readSensors c4In1 1).doc, (readSensors c4In2 1).doc] ∧
    ((broadcastTick (broadcastTick { jsonData := [], clientCount := 1 } c4In1).1
        c4In2).2.getD []).length = 2 := by
  exact ⟨fun i c => rfl, rfl, rfl, rfl⟩

/-- Invariant of the registry under well-formed transport behaviour:
the int counter tracks the length of the (nodup) connected-id list. -/
theorem runWs_invariant (es : List WsEvent) : ∀ (s : WsState),
    s.clientCount = (s.ids.length : Int) → s.ids.Nodup →
    wellFormedFrom s.ids es = true →
    (runWs s es).clientCount = ((runWs s es).ids.length : Int) ∧
      (runWs s es).ids.Nodup := by
  induction es with
  | nil => intro s h1 h2 _; exact ⟨h1, h2⟩
  | cons e rest ih =>
    intro s h1 h2 hwf
    cases e with
    | connected n =>
        simp only [wellFormedFrom, Bool.and_eq_true, Bool.not_eq_true'] at hwf
        obtain ⟨hc, hrest⟩ := hwf
        have hnm : ¬ n ∈ s.ids := by simpa using hc
        have hstep : (wsStep s (WsEvent.connected n)).1 =
            { clientCount := s.clientCount + 1, ids := n :: s.ids } := by
          simp [wsStep, hc, hnm]
        rw [runWs, hstep]
        refine ih _ ?_ (List.nodup_cons.mpr ⟨hnm, h2⟩) hrest
        show s.clientCount + 1 = ((n :: s.ids).length : Int)
        rw [h1, List.length_cons]
        push_cast
        ring
    | disconnected n =>
        simp only [wellFormedFrom, Bool.and_eq_true] at hwf
        obtain ⟨hc, hrest⟩ := hwf
        have hm : n ∈ s.ids := by simpa using hc
        have hlen := List.length_erase_of_mem hm
        have hpos := List.length_pos_of_mem hm
        rw [runWs]
        apply ih
        · show s.clientCount - 1 = ((s.ids.erase n).length : Int)
          rw [h1, hlen]
          omega
        · exact h2.erase n
        · exact hrest
    | text num m =>
        simp only [wellFormedFrom] at hwf
        rw [runWs]
        exact ih s h1 h2 hwf

/-- C2 amended: for every well-formed transport event sequence (each
connect is for a not-yet-connected id, each disconnect for a connected
one), the counter equals the number of distinct currently-connected
session ids and is never negative; an arbitrary sequence can break both
(the sketch keeps no ids, only a blindly incremented counter). -/
theorem C2_amended (es : List WsEvent) (h : wellFormedFrom [] es = true) :
    (runWs initWsState es).clientCount = ((runWs initWsState es).ids.length : Int) ∧
    (runWs initWsState es).ids.Nodup ∧
    0 ≤ (runWs initWsState es).clientCount := by
  have hinv := runWs_invariant es initWsState rfl List.nodup_nil h
  refine ⟨hinv.1, hinv.2, ?_⟩
  rw [hinv.1]
  exact Int.natCast_nonneg _

/-- C2 witness: the amended invariant evaluated on a concrete
well-formed sequence of two connects and one disconnect. -/
theorem C2_amended_witness :
    wellFormedFrom [] [WsEvent.connected 0, WsEvent.connected 1,
      WsEvent.disconnected 0] = true ∧
    ((runWs initWsState [WsEvent.connected 0, WsEvent.connected 1,
        WsEvent.disconnected 0]).clientCount =
      ((runWs initWsState [WsEvent.connected 0, WsEvent.connected 1,
        WsEvent.disconnected 0]).ids.length : Int) ∧
     (runWs initWsState [WsEvent.connected 0, WsEvent.connected 1,
        WsEvent.disconnected 0]).ids.Nodup ∧
     0 ≤ (runWs initWsState [WsEvent.connected 0, WsEvent.connected 1,
        WsEvent.disconnected 0]).clientCount) :=
  ⟨by decide, C2_amended _ (by decide)⟩

/-- Every output in the trace suffix starting at event index k carries
a tag of at least k. -/
theorem sysTraceFrom_tag_ge (msgs : List (Nat × String)) : ∀ (k : Nat),
    ∀ x ∈ sysTraceFrom k msgs, k ≤ x.1 := by
  induction msgs with
  | nil => intro k x hx; simp [sysTraceFrom] at hx
  | cons m rest ih =>
      intro k x hx
      simp only [sysTraceFrom, List.mem_append, List.mem_map] at hx
      rcases hx with ⟨e, _, rfl⟩ | hx
      · exact le_refl k
      · exact Nat.le_of_succ_le (ih (k + 1) x hx)

/-- The tags of the single-threaded trace are nondecreasing: each
outputs of each event are emitted as one contiguous block before the next
event is serviced. -/
theorem sysTraceFrom_sorted (msgs : List (Nat × String)) : ∀ (k : Nat),
    List.Pairwise (fun a b => a.1 ≤ b.1) (sysTraceFrom k msgs) := by
  induction msgs with
  | nil => intro k; simp [sysTraceFrom]
  | cons m rest ih =>
      intro k
      simp only [sysTraceFrom]
      refine List.pairwise_append.mpr ⟨?_, ih (k + 1), ?_⟩
      · exact List.pairwise_map.mpr (List.pairwise_of_forall (fun _ _ => le_refl k))
      · intro a ha b hb
        rcases List.mem_map.mp ha with ⟨e, _, rfl⟩
        exact Nat.le_of_succ_le (sysTraceFrom_tag_ge rest (k + 1) b hb)

/-- C5 confirmed: in the single-threaded blocking semantics the
invocation tags of the whole output trace are nondecreasing, so the
steps of two alert patterns never interleave and at most one pattern
executes at a time (the pattern of each message runs to completion before
the next event is serviced, so no start request can even be issued
while a pattern is running); moreover each message produces either no
alert, exactly the emergency sequence, or exactly the SOS sequence —
never parts of two. -/
theorem C5_no_interleaving (msgs : List (Nat × String)) :
    List.Pairwise (fun a b => a ≤ b) ((sysTrace msgs).map Prod.fst) ∧
    ∀ (num : Nat) (m : String),
      handleWebSocketMessage num m = [] ∨
      handleWebSocketMessage num m =
        triggerEmergencyOut ++ [OutEvent.sendTXT num emergencyAck] ∨
      handleWebSocketMessage num m =
        triggerSOSOut ++ [OutEvent.sendTXT num sosAck] := by
  constructor
  · exact List.Pairwise.map _ (fun a b hab => hab) (sysTraceFrom_sorted msgs 0)
  · intro num m
    by_cases h1 : containsStr m emergencyKeyword = true
    · right; left; simp [handleWebSocketMessage, h1]
    · by_cases h2 : containsStr m sosKeyword = true
      · right; right
        simp [handleWebSocketMessage, h1, h2]
      · left
        simp [handleWebSocketMessage, h1, h2]

end AegisShield
